import Mathlib

/-
Verification development for the RSM retrieval-augmented-generation service.

The Python sources under `app/` are shallowly embedded as Lean definitions:
pure code becomes Lean functions, exception-raising code returns
`Except String`, exceptions are identified with their message strings
(every exception this code raises or inspects is consumed via `str(e)`),
and third-party collaborators (the OpenAI client, ChromaDB, `requests`,
`pdfplumber`, BeautifulSoup, the langchain recursive splitter) are
parameters of the embedded functions.  The optional Langfuse observability
collaborator is embedded as a boolean flag plus an event log: every
operation returns its value paired with the list of metric/trace events it
emitted, mirroring the `if self.observability_service:` branches of the
source; the collaborator itself only logs and is modelled as non-failing.
-/

namespace RSM

/-! ## Data model (app/models/schemas.py, app/utils/text_splitter.py) -/

/-- Metadata dictionary attached to a loaded document
(`app/utils/document_loader.py`).  Only the keys the pipeline reads are
modelled; each is optional, mirroring `dict.get`. -/
structure DocMetadata where
  source : Option String := none
  type : Option String := none
  total_pages : Option Nat := none
  source_type : Option String := none
  filename : Option String := none
deriving DecidableEq, Repr

/-- A langchain `Document`: `page_content` plus metadata. -/
structure Document where
  page_content : String
  metadata : DocMetadata
deriving DecidableEq, Repr

/-- Metadata dictionary attached to a chunk by
`SmartTextSplitter.split_document`: the document metadata (copied onto
every chunk by the langchain splitter) plus the per-chunk keys. -/
structure ChunkMetadata where
  doc : DocMetadata
  chunk_index : Nat
  total_chunks : Nat
  chunk_size : Nat
  original_length : Nat
  page : Option Nat := none
deriving DecidableEq, Repr

/-- `DocumentChunk` from `app/utils/text_splitter.py`. -/
structure DocumentChunk where
  text : String
  metadata : ChunkMetadata
  chunk_id : String
deriving DecidableEq, Repr

/-- One element of the `embedding_results` list built by
`EmbeddingService._embed_chunks_impl`.  The embedding vector type is kept
abstract (the source stores `List[float]`; no claim depends on float
arithmetic). -/
structure EmbeddingRecord (E : Type) where
  embedding : E
  text : String
  metadata : ChunkMetadata
  chunk_id : String
deriving DecidableEq, Repr

/-- `IngestResponse` from `app/models/schemas.py`;
`document_info` is the dict built by the orchestrator. -/
structure DocumentInfo where
  source : String
  type : Option String
  total_pages : Option Nat
  original_length : Nat
deriving DecidableEq, Repr

structure IngestResponse where
  status : String
  message : String
  chunks_created : Nat
  document_info : Option DocumentInfo
deriving DecidableEq, Repr

/-- One search result dict produced by `VectorService._search_similar_impl`
(the reshaping of the raw ChromaDB reply into these dicts is folded into
the query parameter of the vector service model; the query path reads only
`text` and `metadata.get("page")`, and `distance` feeds only logged
metrics, which the event log records by name). -/
structure SearchResultItem where
  text : String
  page : Option Nat
deriving DecidableEq, Repr

/-- `Source` from `app/models/schemas.py`. -/
structure Source where
  page : Option Nat
  text : String
deriving DecidableEq, Repr

/-- `QueryResponse` from `app/models/schemas.py`. -/
structure QueryResponse where
  answer : String
  sources : List Source
deriving DecidableEq, Repr

/-- Decidable equality for `Except` results, so that concrete runs of the
embedded fallible functions can be checked by `decide`. -/
instance exceptDecEq {ε α : Type} [DecidableEq ε] [DecidableEq α] :
    DecidableEq (Except ε α) := fun x y =>
  match x, y with
  | .error a, .error b =>
    if h : a = b then isTrue (by rw [h])
    else isFalse (fun hc => h (Except.error.inj hc))
  | .ok a, .ok b =>
    if h : a = b then isTrue (by rw [h])
    else isFalse (fun hc => h (Except.ok.inj hc))
  | .error _, .ok _ => isFalse (fun hc => Except.noConfusion hc)
  | .ok _, .error _ => isFalse (fun hc => Except.noConfusion hc)

/-! ## Page-marker pattern matching (app/utils/text_splitter.py)

`_extract_page_number` runs `re.search(r"--- Page (\d+) ---", text)` and
`split_document` runs `re.sub(r"\n--- Page \d+ ---\n", "\n", text)`
followed by `str.strip()`.  Both regexes are literal text around a greedy
digit run; since the character after the digits in the pattern is a space,
greedy matching with backtracking coincides with taking the maximal digit
run, so the matcher below is an exact embedding.  Scanning functions carry
an explicit fuel argument (instantiated with the text length, which always
suffices because every step consumes at least one character) so that they
are structurally recursive and evaluate inside the kernel. -/

/-- Match a literal character list at the start of the input; return the
remainder on success. -/
def dropLit : List Char → List Char → Option (List Char)
  | [], cs => some cs
  | _ :: _, [] => none
  | l :: ls, c :: cs => if c = l then dropLit ls cs else none

/-- Python `int` of a digit string. -/
def digitsToNat (ds : List Char) : Nat :=
  ds.foldl (fun a c => 10 * a + (c.toNat - 48)) 0

/-- Split a leading (possibly empty) digit run off the input. -/
def takeDigits (cs : List Char) : List Char × List Char :=
  (cs.takeWhile Char.isDigit, cs.dropWhile Char.isDigit)

/-- Match `--- Page (\d+) ---` at the start of the input; on success return
the captured page number and the remainder after the match. -/
def matchMarkerAt (cs : List Char) : Option (Nat × List Char) :=
  match dropLit "--- Page ".data cs with
  | none => none
  | some r1 =>
    let ds := (takeDigits r1).1
    let r2 := (takeDigits r1).2
    if ds.isEmpty then none
    else
      match dropLit " ---".data r2 with
      | none => none
      | some r3 => some (digitsToNat ds, r3)

/-- `re.search(r"--- Page (\d+) ---", text)`: the number of the leftmost
marker, if any. -/
def searchMarker : List Char → Option Nat
  | [] => none
  | c :: cs =>
    match matchMarkerAt (c :: cs) with
    | some (n, _) => some n
    | none => searchMarker cs

/-- All marker numbers in the text, leftmost first, scanning past each
match the way `re.findall` does (non-overlapping).  Fueled. -/
def scanMarkersF : Nat → List Char → List Nat
  | 0, _ => []
  | _, [] => []
  | fuel + 1, c :: cs =>
    match matchMarkerAt (c :: cs) with
    | some (n, rest) => n :: scanMarkersF fuel rest
    | none => scanMarkersF fuel cs

def scanMarkers (cs : List Char) : List Nat := scanMarkersF cs.length cs

/-- `SmartTextSplitter._extract_page_number`. -/
def extract_page_number (s : String) : Option Nat := searchMarker s.data

/-- Match `\n--- Page \d+ ---\n` at the start of the input; on success
return the remainder after the whole match (including the trailing
newline, which the replacement re-emits). -/
def matchSubAt (cs : List Char) : Option (List Char) :=
  match dropLit "\n--- Page ".data cs with
  | none => none
  | some r1 =>
    let ds := (takeDigits r1).1
    let r2 := (takeDigits r1).2
    if ds.isEmpty then none
    else dropLit " ---\n".data r2

/-- `re.sub(r"\n--- Page \d+ ---\n", "\n", text)`: scan left to right,
replace each non-overlapping match with a single newline, resume scanning
after the match.  Fueled. -/
def subMarkersF : Nat → List Char → List Char
  | 0, l => l
  | _, [] => []
  | fuel + 1, c :: cs =>
    match matchSubAt (c :: cs) with
    | some rest => Char.ofNat 10 :: subMarkersF fuel rest
    | none => c :: subMarkersF fuel cs

/-- Python `str.strip()` whitespace set (the ASCII part; the texts this
code strips contain only ASCII whitespace). -/
def isPySpace (c : Char) : Bool :=
  c = Char.ofNat 32 || c = Char.ofNat 9 || c = Char.ofNat 10 ||
  c = Char.ofNat 13 || c = Char.ofNat 11 || c = Char.ofNat 12

/-- Python `str.strip()`. -/
def pyStrip (cs : List Char) : List Char :=
  ((cs.dropWhile isPySpace).reverse.dropWhile isPySpace).reverse

def pyStripS (s : String) : String := String.mk (pyStrip s.data)

/-- Python `str.startswith` on one candidate (character-level
comparison). -/
def pyStartsWith (s p : String) : Bool :=
  decide (s.data.take p.data.length = p.data)

/-- The chunk-text cleanup applied to PDF chunks by `split_document`:
`re.sub(...)` then `.strip()`. -/
def cleanPdfText (s : String) : String :=
  pyStripS (String.mk (subMarkersF s.data.length s.data))

/-! ## SmartTextSplitter (app/utils/text_splitter.py) -/

/-- Constructor validation for `SmartTextSplitter.__init__`.  The class
itself performs no validation; the only check happens inside the
third-party langchain `RecursiveCharacterTextSplitter` it constructs,
whose base class raises
`ValueError("Got a larger chunk overlap (...) than chunk size (...), should be smaller.")`
precisely when `chunk_overlap > chunk_size` (strict). -/
def recursive_splitter_init_check (chunk_size chunk_overlap : Int) : Except String Unit :=
  if chunk_overlap > chunk_size then
    .error ("Got a larger chunk overlap (" ++ toString chunk_overlap ++
      ") than chunk size (" ++ toString chunk_size ++ "), should be smaller.")
  else .ok ()

/-- The configuration state a successfully constructed `SmartTextSplitter`
holds. -/
structure SmartTextSplitterState where
  chunk_size : Int
  chunk_overlap : Int
deriving DecidableEq, Repr

/-- `SmartTextSplitter.__init__`: store the sizes and construct the inner
langchain splitter (whose constructor check can raise). -/
def smart_text_splitter_init (chunk_size chunk_overlap : Int) :
    Except String SmartTextSplitterState :=
  match recursive_splitter_init_check chunk_size chunk_overlap with
  | .error e => .error e
  | .ok _ => .ok ⟨chunk_size, chunk_overlap⟩

/-- `SmartTextSplitter.split_document`.  `pieces` is the list of
`page_content` strings produced by the third-party langchain
`RecursiveCharacterTextSplitter.split_documents([document])` call (each of
those chunks carries a copy of `document.metadata`, which is why the
per-chunk `chunk.metadata.get("type") == "pdf"` test is the test on
`document.metadata.type`).  `freshId` supplies the `uuid4` string for the
i-th constructed `DocumentChunk`. -/
def split_document (freshId : Nat → String) (pieces : List String)
    (document : Document) : List DocumentChunk :=
  pieces.enum.map fun p =>
    let i := p.1
    let content := p.2
    let md : ChunkMetadata :=
      { doc := document.metadata
        chunk_index := i
        total_chunks := pieces.length
        chunk_size := content.length
        original_length := document.page_content.length
        page := none }
    if document.metadata.type = some "pdf" then
      let md2 : ChunkMetadata :=
        match extract_page_number content with
        | some n => if n = 0 then md else { md with page := some n }
        | none => md
      { text := cleanPdfText content, metadata := md2, chunk_id := freshId i }
    else
      { text := content, metadata := md, chunk_id := freshId i }

/-! ## DocumentLoader (app/utils/document_loader.py)

Network and parser collaborators are parameters: `fetch` models
`requests.get(url).text` (its `.error` is a `requests.RequestException`),
`fetchPdf` models downloading a PDF and opening it with `pdfplumber`
(yielding `page.extract_text()` per page, `none` for pages without text),
`pdfOpenPath` models `pdfplumber.open(path)` likewise, and `htmlToText`
models BeautifulSoup text extraction after dropping script/style tags. -/

def load_text (content : String) (metadata : DocMetadata) : Document :=
  ⟨content, metadata⟩

/-- The whitespace normalization in `DocumentLoader.load_html` after
`soup.get_text()`: strip each line, split on double spaces, strip each
phrase, join the non-empty ones with single spaces.  (`str.splitlines` is
modelled as splitting on newline; the difference — exotic terminators and
a trailing empty piece — is erased by the strip-and-filter that follows.) -/
def html_normalize (text : String) : String :=
  let lines := (text.splitOn "\n").map pyStripS
  let chunks := (lines.flatMap fun line => line.splitOn "  ").map pyStripS
  String.intercalate " " (chunks.filter fun c => decide (c ≠ ""))

def load_html (htmlToText : String → String) (content : String)
    (metadata : DocMetadata) : Document :=
  ⟨html_normalize (htmlToText content), metadata⟩

def load_markdown (content : String) (metadata : DocMetadata) : Document :=
  ⟨content, metadata⟩

/-- The `text_parts` / `"\n".join` assembly in `DocumentLoader.load_pdf`:
pages are numbered from 1, pages whose extracted text is `None` or empty
(Python truthiness of `page_text`) are skipped, and each kept page is
rendered as `"\n--- Page N ---\n" + text`. -/
def page_marker_text (pages : List (Option String)) : String :=
  String.intercalate "\n" (pages.enum.filterMap fun p =>
    match p.2 with
    | some t => if t = "" then none else
        some ("\n--- Page " ++ toString (p.1 + 1) ++ " ---\n" ++ t)
    | none => none)

/-- `DocumentLoader.load_pdf`: `pagesRes` is the outcome of opening the
PDF with pdfplumber and extracting each page (an `.error` is any exception
out of pdfplumber/requests content handling, wrapped here by the
own `except` clause of the function).  `src_type` is `"pdf_file"` or
`"pdf_bytes"` according to the overload taken. -/
def load_pdf (pagesRes : Except String (List (Option String)))
    (src_type : String) (metadata : DocMetadata) : Except String Document :=
  match pagesRes with
  | .error e => .error ("Failed to process PDF: " ++ e)
  | .ok pages =>
    let full_text := page_marker_text pages
    if (pyStrip full_text.data).isEmpty then
      .error "Failed to process PDF: No text could be extracted from the PDF"
    else
      .ok ⟨full_text,
        { metadata with total_pages := some pages.length, source_type := some src_type }⟩

/-- `DocumentLoader.load_pdf_from_url`: a download failure
(`requests.RequestException`) becomes the wrapped download error; a PDF
processing failure from `load_pdf` propagates as is (only
`RequestException` is caught here, so `fetchPdf` rolls download and
pdfplumber opening together, with download failures tagged by the
caller). -/
def load_pdf_from_url (fetchPdf : String → Except String (List (Option String)))
    (url : String) : Except String Document :=
  match fetchPdf url with
  | .error e => .error ("Failed to download PDF from URL " ++ url ++ ": " ++ e)
  | .ok pages => load_pdf (.ok pages) "pdf_bytes" { source := some url, type := some "pdf" }

/-- `DocumentLoader.load_from_url`. -/
def load_from_url (fetch : String → Except String String)
    (fetchPdf : String → Except String (List (Option String)))
    (htmlToText : String → String)
    (url : String) (document_type : String) : Except String Document :=
  if document_type = "pdf" then
    load_pdf_from_url fetchPdf url
  else
    match fetch url with
    | .error e => .error ("Failed to load document from URL " ++ url ++ ": " ++ e)
    | .ok body =>
      let metadata : DocMetadata := { source := some url, type := some document_type }
      if document_type = "html" then .ok (load_html htmlToText body metadata)
      else .ok (load_text body metadata)

/-- `DocumentLoader.load_document`: content beginning with a URL scheme is
always fetched, for every `document_type`; otherwise it is treated as
literal text (or, for `"pdf"`, as a file path) according to the type. -/
def load_document (fetch : String → Except String String)
    (fetchPdf : String → Except String (List (Option String)))
    (pdfOpenPath : String → Except String (List (Option String)))
    (htmlToText : String → String)
    (content : String) (document_type : String) : Except String Document :=
  if pyStartsWith content "http://" || pyStartsWith content "https://" then
    load_from_url fetch fetchPdf htmlToText content document_type
  else if document_type = "html" then
    .ok (load_html htmlToText content { type := some "html" })
  else if document_type = "markdown" then
    .ok (load_markdown content { type := some "markdown" })
  else if document_type = "text" then
    .ok (load_text content { type := some "text" })
  else if document_type = "pdf" then
    load_pdf (pdfOpenPath content) "pdf_file" { type := some "pdf" }
  else
    .error ("Unsupported document type: " ++ document_type)

/-! ## Observability plumbing (app/services/observability_service.py)

`trace_operation` logs a start line, yields, then logs a completion (or
error) line and updates its Langfuse span; `log_metrics` logs one metrics
line.  Neither influences the value computed by the operation it observes,
so the embedding records events by name in a log component alongside each
value of the operation.  `obs : Bool` is the presence of the optional
observability collaborator. -/

/-- `self.observability_service.log_metrics(name, ...)` behind an
`if self.observability_service:` guard. -/
def logIf (obs : Bool) (ev : String) : List String :=
  if obs then [ev] else []

/-- `async with self.observability_service.trace_operation(name, ...)`
around a computation: bracket its events with begin/end events. -/
def traceWrap {α : Type} (name : String) (p : α × List String) : α × List String :=
  (p.1, ("trace_begin:" ++ name) :: p.2 ++ ["trace_end:" ++ name])

/-! ## EmbeddingService (app/services/embedding_service.py)

The OpenAI client is a parameter: `provider1` models
`client.embeddings.create(model, input=text).data[0].embedding` for a
single string and `provider` models the same call on a list of strings,
returning one vector per item of `response.data`; an `.error` is any
exception the client raises.  `E` is the embedding vector type. -/

/-- `EmbeddingService._generate_embedding_impl`. -/
def generate_embedding_impl {E : Type} (obs : Bool)
    (provider1 : String → Except String E) (text : String) :
    Except String E × List String :=
  match provider1 text with
  | .ok emb => (.ok emb, logIf obs "embedding_generation")
  | .error e => (.error ("Failed to generate embedding: " ++ e), [])

/-- `EmbeddingService.generate_embedding`. -/
def generate_embedding {E : Type} (obs : Bool)
    (provider1 : String → Except String E) (text : String) :
    Except String E × List String :=
  if obs then traceWrap "embedding_generation" (generate_embedding_impl obs provider1 text)
  else generate_embedding_impl obs provider1 text

/-- `EmbeddingService._generate_embeddings_batch_impl`. -/
def generate_embeddings_batch_impl {E : Type} (obs : Bool)
    (provider : List String → Except String (List E)) (texts : List String) :
    Except String (List E) × List String :=
  match provider texts with
  | .ok embs => (.ok embs, logIf obs "batch_embedding_generation")
  | .error e => (.error ("Failed to generate batch embeddings: " ++ e), [])

/-- `EmbeddingService.generate_embeddings_batch`. -/
def generate_embeddings_batch {E : Type} (obs : Bool)
    (provider : List String → Except String (List E)) (texts : List String) :
    Except String (List E) × List String :=
  if obs then
    traceWrap "batch_embedding_generation" (generate_embeddings_batch_impl obs provider texts)
  else generate_embeddings_batch_impl obs provider texts

/-- `batch_size = 100` in `_embed_chunks_impl`. -/
def batch_size : Nat := 100

/-- The grouping performed by `for i in range(0, len(texts), batch_size):
texts[i:i + batch_size]`.  Fueled on the list length (each step drops at
least one element, so the fuel never runs out; the fuel-exhausted case is
unreachable). -/
def toBatchesF : Nat → List String → List (List String)
  | _, [] => []
  | 0, l => [l]
  | fuel + 1, t :: ts =>
    ((t :: ts).take batch_size) :: toBatchesF fuel ((t :: ts).drop batch_size)

def toBatches (l : List String) : List (List String) := toBatchesF l.length l

/-- The sequential batch loop of `_embed_chunks_impl`: issue each batch in
order, abort on the first failure, concatenate the returned vectors. -/
def batchLoop {E : Type} (obs : Bool)
    (provider : List String → Except String (List E)) :
    List (List String) → Except String (List E) × List String
  | [] => (.ok [], [])
  | b :: bs =>
    let r := generate_embeddings_batch obs provider b
    match r.1 with
    | .error e => (.error e, r.2)
    | .ok embs =>
      let rest := batchLoop obs provider bs
      match rest.1 with
      | .error e => (.error e, r.2 ++ rest.2)
      | .ok more => (.ok (embs ++ more), r.2 ++ rest.2)

/-- The `zip(chunks, all_embeddings)` record assembly of
`_embed_chunks_impl`. -/
def zipRecords {E : Type} (chunks : List DocumentChunk) (embs : List E) :
    List (EmbeddingRecord E) :=
  List.zipWith (fun c e => ⟨e, c.text, c.metadata, c.chunk_id⟩) chunks embs

/-- `EmbeddingService._embed_chunks_impl`. -/
def embed_chunks_impl {E : Type} (obs : Bool)
    (provider : List String → Except String (List E))
    (chunks : List DocumentChunk) :
    Except String (List (EmbeddingRecord E)) × List String :=
  let texts := chunks.map (fun c => c.text)
  let r := batchLoop obs provider (toBatches texts)
  match r.1 with
  | .error e => (.error e, r.2)
  | .ok all_embeddings =>
    (.ok (zipRecords chunks all_embeddings), r.2 ++ logIf obs "chunks_embedding_complete")

/-- `EmbeddingService.embed_chunks`. -/
def embed_chunks {E : Type} (obs : Bool)
    (provider : List String → Except String (List E))
    (chunks : List DocumentChunk) :
    Except String (List (EmbeddingRecord E)) × List String :=
  if obs then traceWrap "document_chunks_embedding" (embed_chunks_impl obs provider chunks)
  else embed_chunks_impl obs provider chunks

/-! ## VectorService (app/services/vector_service.py)

The ChromaDB collection is a parameter: `add` models `collection.add`
applied to the four parallel lists projected from the records (the
projection itself cannot fail on well-typed records, so it is folded into
the call), and `querySearch` models `collection.query` together with the
pure reshaping of its reply into result dicts. -/

/-- `VectorService._store_embeddings_impl`. -/
def store_embeddings_impl {E : Type} (obs : Bool)
    (add : List (EmbeddingRecord E) → Except String Unit)
    (embedding_results : List (EmbeddingRecord E)) :
    Except String Nat × List String :=
  if embedding_results.isEmpty then (.ok 0, [])
  else
    match add embedding_results with
    | .ok _ => (.ok embedding_results.length, logIf obs "vector_storage")
    | .error e => (.error ("Failed to store embeddings: " ++ e), [])

/-- `VectorService.store_embeddings`. -/
def store_embeddings {E : Type} (obs : Bool)
    (add : List (EmbeddingRecord E) → Except String Unit)
    (embedding_results : List (EmbeddingRecord E)) :
    Except String Nat × List String :=
  if obs then
    traceWrap "vector_storage" (store_embeddings_impl obs add embedding_results)
  else store_embeddings_impl obs add embedding_results

/-- `VectorService._search_similar_impl`. -/
def search_similar_impl {E : Type} (obs : Bool)
    (querySearch : E → Nat → Except String (List SearchResultItem))
    (query_embedding : E) (top_k : Nat) :
    Except String (List SearchResultItem) × List String :=
  match querySearch query_embedding top_k with
  | .ok rs => (.ok rs, logIf obs "similarity_search")
  | .error e => (.error ("Failed to search similar documents: " ++ e), [])

/-- `VectorService.search_similar`. -/
def search_similar {E : Type} (obs : Bool)
    (querySearch : E → Nat → Except String (List SearchResultItem))
    (query_embedding : E) (top_k : Nat) :
    Except String (List SearchResultItem) × List String :=
  if obs then
    traceWrap "similarity_search" (search_similar_impl obs querySearch query_embedding top_k)
  else search_similar_impl obs querySearch query_embedding top_k

/-! ## DocumentService (app/services/document_service.py)

The stage collaborators are parameters: `load` is the outcome of
`self.document_loader.load_document(content, document_type)` (see
`load_document` above for its own embedding), `split` the outcome of
`self.text_splitter.split_document(document)` (an `.error` is an
exception out of the langchain splitter), and the provider/collection
parameters are threaded to the embedded services. -/

/-- The apostrophe character, as used in f-string messages quoting a
filename. -/
def apos : String := String.singleton (Char.ofNat 39)

/-- The fixed no-context answer of `_query_documents_impl`:
"I don&#39;t have any relevant documents to answer this question." -/
def no_context_answer : String :=
  "I don" ++ apos ++ "t have any relevant documents to answer this question."

/-- The structured error result of the `except` clause of
`_ingest_document_impl`. -/
def ingestErrorResponse (e : String) : IngestResponse :=
  ⟨"error", "Failed to ingest document: " ++ e, 0, none⟩

/-- `DocumentService._ingest_document_impl`. -/
def ingest_document_impl {E : Type} (obs : Bool)
    (load : Except String Document)
    (split : Document → Except String (List DocumentChunk))
    (provider : List String → Except String (List E))
    (add : List (EmbeddingRecord E) → Except String Unit) :
    IngestResponse × List String :=
  match load with
  | .error e => (ingestErrorResponse e, logIf obs "document_ingestion_error")
  | .ok document =>
    match split document with
    | .error e => (ingestErrorResponse e, logIf obs "document_ingestion_error")
    | .ok chunks =>
      if chunks.isEmpty then
        (⟨"error", "No chunks were created from the document", 0, none⟩, [])
      else
        let ev1 := logIf obs "document_chunking"
        let er := embed_chunks obs provider chunks
        match er.1 with
        | .error e =>
          (ingestErrorResponse e, ev1 ++ er.2 ++ logIf obs "document_ingestion_error")
        | .ok embedding_results =>
          let sr := store_embeddings obs add embedding_results
          match sr.1 with
          | .error e =>
            (ingestErrorResponse e, ev1 ++ er.2 ++ sr.2 ++ logIf obs "document_ingestion_error")
          | .ok stored_count =>
            (⟨"success",
              "Successfully ingested document with " ++ toString stored_count ++ " chunks",
              stored_count,
              some ⟨document.metadata.source.getD "direct_input",
                    document.metadata.type,
                    document.metadata.total_pages,
                    document.page_content.length⟩⟩,
             ev1 ++ er.2 ++ sr.2 ++ logIf obs "document_ingestion_complete")

/-- `DocumentService.ingest_document`. -/
def ingest_document {E : Type} (obs : Bool)
    (load : Except String Document)
    (split : Document → Except String (List DocumentChunk))
    (provider : List String → Except String (List E))
    (add : List (EmbeddingRecord E) → Except String Unit) :
    IngestResponse × List String :=
  if obs then
    traceWrap "document_ingestion" (ingest_document_impl obs load split provider add)
  else ingest_document_impl obs load split provider add

/-- The structured error result of the `except` clause of `_ingest_file_impl`:
`f"Failed to ingest file &#39;{filename}&#39;: {str(e)}"`. -/
def fileIngestErrorResponse (filename e : String) : IngestResponse :=
  ⟨"error", "Failed to ingest file " ++ apos ++ filename ++ apos ++ ": " ++ e, 0, none⟩

/-- `DocumentService._ingest_file_impl`.  `pdfLoad` is the outcome of
`self.document_loader.load_pdf(file_content, metadata)`. -/
def ingest_file_impl {E : Type} (obs : Bool)
    (pdfLoad : Except String Document)
    (split : Document → Except String (List DocumentChunk))
    (provider : List String → Except String (List E))
    (add : List (EmbeddingRecord E) → Except String Unit)
    (filename : String) (document_type : String) :
    IngestResponse × List String :=
  let docRes : Except String Document :=
    if document_type = "pdf" then pdfLoad
    else .error ("type: " ++ document_type ++ " not supported")
  match docRes with
  | .error e => (fileIngestErrorResponse filename e, logIf obs "file_ingestion_error")
  | .ok document =>
    match split document with
    | .error e => (fileIngestErrorResponse filename e, logIf obs "file_ingestion_error")
    | .ok chunks =>
      if chunks.isEmpty then
        (⟨"error", "No chunks were created", 0, none⟩, [])
      else
        let ev1 := logIf obs "file_processing"
        let er := embed_chunks obs provider chunks
        match er.1 with
        | .error e =>
          (fileIngestErrorResponse filename e, ev1 ++ er.2 ++ logIf obs "file_ingestion_error")
        | .ok embedding_results =>
          let sr := store_embeddings obs add embedding_results
          match sr.1 with
          | .error e =>
            (fileIngestErrorResponse filename e,
             ev1 ++ er.2 ++ sr.2 ++ logIf obs "file_ingestion_error")
          | .ok stored_count =>
            (⟨"success",
              "Successfully ingested file " ++ apos ++ filename ++ apos ++ " with " ++
                toString stored_count ++ " chunks",
              stored_count,
              some ⟨filename, document.metadata.type, document.metadata.total_pages,
                    document.page_content.length⟩⟩,
             ev1 ++ er.2 ++ sr.2 ++ logIf obs "file_ingestion_complete")

/-- `DocumentService.ingest_file`. -/
def ingest_file {E : Type} (obs : Bool)
    (pdfLoad : Except String Document)
    (split : Document → Except String (List DocumentChunk))
    (provider : List String → Except String (List E))
    (add : List (EmbeddingRecord E) → Except String Unit)
    (filename : String) (document_type : String) :
    IngestResponse × List String :=
  if obs then
    traceWrap "file_ingestion"
      (ingest_file_impl obs pdfLoad split provider add filename document_type)
  else ingest_file_impl obs pdfLoad split provider add filename document_type

/-- The `Source` built for one retrieved chunk by
`_query_documents_impl`: page from the chunk metadata, text truncated to
200 characters with an ellipsis when longer. -/
def mkSource (c : SearchResultItem) : Source :=
  ⟨c.page, if c.text.length > 200 then c.text.take 200 ++ "..." else c.text⟩

/-- The best-effort answer of the `except` clause of `_query_documents_impl`. -/
def queryErrorResponse (e : String) : QueryResponse :=
  ⟨"An error occurred while processing your question: " ++ e, []⟩

/-- `DocumentService._query_documents_impl`.  `generateAnswer` is
`self.llm_service.generate_answer(question, similar_chunks)` (an `.error`
is the `RuntimeError` that service raises on a generation failure). -/
def query_documents_impl {E : Type} (obs : Bool)
    (provider1 : String → Except String E)
    (querySearch : E → Nat → Except String (List SearchResultItem))
    (generateAnswer : String → List SearchResultItem → Except String String)
    (question : String) : QueryResponse × List String :=
  let qe := generate_embedding obs provider1 question
  match qe.1 with
  | .error e => (queryErrorResponse e, qe.2 ++ logIf obs "rag_query_error")
  | .ok question_embedding =>
    let sr := search_similar obs querySearch question_embedding 5
    match sr.1 with
    | .error e => (queryErrorResponse e, qe.2 ++ sr.2 ++ logIf obs "rag_query_error")
    | .ok similar_chunks =>
      if similar_chunks.isEmpty then
        (⟨no_context_answer, []⟩, qe.2 ++ sr.2)
      else
        let ev1 := logIf obs "rag_retrieval"
        match generateAnswer question similar_chunks with
        | .error e =>
          (queryErrorResponse e, qe.2 ++ sr.2 ++ ev1 ++ logIf obs "rag_query_error")
        | .ok answer =>
          (⟨answer, similar_chunks.map mkSource⟩,
           qe.2 ++ sr.2 ++ ev1 ++ logIf obs "rag_query_complete")

/-- `DocumentService.query_documents`. -/
def query_documents {E : Type} (obs : Bool)
    (provider1 : String → Except String E)
    (querySearch : E → Nat → Except String (List SearchResultItem))
    (generateAnswer : String → List SearchResultItem → Except String String)
    (question : String) : QueryResponse × List String :=
  if obs then
    traceWrap "rag_query"
      (query_documents_impl obs provider1 querySearch generateAnswer question)
  else query_documents_impl obs provider1 querySearch generateAnswer question

/-! ## Concrete sample data (used to instantiate theorems on concrete runs) -/

/-- A sample chunk used to instantiate universally quantified theorems on
concrete runs. -/
def sampleChunk : DocumentChunk :=
  ⟨"hello", ⟨{}, 0, 1, 5, 5, none⟩, "id0"⟩

/-- Raw splitter pieces of a concrete two-page PDF document. -/
def pagePieces : List String := ["\n--- Page 1 ---\nA", "--- Page 2 ---\nB"]

/-- The concrete two-page PDF document the pieces came from. -/
def pageDoc : Document :=
  ⟨"\n--- Page 1 ---\nA\n--- Page 2 ---\nB",
   { type := some "pdf", total_pages := some 2 }⟩

/-! ## Supporting lemmas -/

theorem length_dropWhile_le (p : Char → Bool) : ∀ (l : List Char),
    (l.dropWhile p).length ≤ l.length := by
  intro l
  induction l with
  | nil => simp
  | cons c cs ih =>
    rw [List.dropWhile_cons]
    split
    · exact Nat.le_trans ih (Nat.le_succ _)
    · exact le_rfl

theorem dropLit_length : ∀ (lit cs r : List Char),
    dropLit lit cs = some r → r.length + lit.length = cs.length := by
  intro lit
  induction lit with
  | nil =>
    intro cs r h
    simp only [dropLit, Option.some.injEq] at h
    subst h
    simp
  | cons l ls ih =>
    intro cs r h
    cases cs with
    | nil => exact absurd h (by simp [dropLit])
    | cons c cs2 =>
      simp only [dropLit] at h
      split at h
      · have := ih cs2 r h
        simp only [List.length_cons]
        omega
      · exact absurd h (by simp)

theorem takeDigits_snd_length_le (cs : List Char) :
    (takeDigits cs).2.length ≤ cs.length := by
  simpa [takeDigits] using length_dropWhile_le Char.isDigit cs

theorem matchMarkerAt_rest_lt (cs : List Char) (n : Nat) (rest : List Char)
    (h : matchMarkerAt cs = some (n, rest)) : rest.length < cs.length := by
  unfold matchMarkerAt at h
  cases h1 : dropLit "--- Page ".data cs with
  | none => rw [h1] at h; exact absurd h (by simp)
  | some r1 =>
    rw [h1] at h
    simp only at h
    split at h
    · exact absurd h (by simp)
    · cases h2 : dropLit " ---".data (takeDigits r1).2 with
      | none => rw [h2] at h; exact absurd h (by simp)
      | some r3 =>
        rw [h2] at h
        simp only [Option.some.injEq, Prod.mk.injEq] at h
        have e1 := dropLit_length _ _ _ h1
        have e2 := dropLit_length _ _ _ h2
        have e3 := takeDigits_snd_length_le r1
        have l1 : ("--- Page ".data).length = 9 := rfl
        have l2 : (" ---".data).length = 4 := rfl
        have hr : rest = r3 := h.2.symm
        subst hr
        omega

theorem matchSubAt_rest_lt (cs rest : List Char)
    (h : matchSubAt cs = some rest) : rest.length < cs.length := by
  unfold matchSubAt at h
  cases h1 : dropLit "\n--- Page ".data cs with
  | none => rw [h1] at h; exact absurd h (by simp)
  | some r1 =>
    rw [h1] at h
    simp only at h
    split at h
    · exact absurd h (by simp)
    · have e1 := dropLit_length _ _ _ h1
      have e2 := dropLit_length _ _ _ h
      have e3 := takeDigits_snd_length_le r1
      have l1 : ("\n--- Page ".data).length = 10 := rfl
      have l2 : (" ---\n".data).length = 5 := rfl
      omega

theorem subMarkersF_length_le : ∀ (fuel : Nat) (cs : List Char),
    (subMarkersF fuel cs).length ≤ cs.length := by
  intro fuel
  induction fuel with
  | zero => intro cs; simp [subMarkersF]
  | succ fuel ih =>
    intro cs
    cases cs with
    | nil => simp [subMarkersF]
    | cons c cs2 =>
      simp only [subMarkersF]
      cases hm : matchSubAt (c :: cs2) with
      | none => simpa using ih cs2
      | some rest =>
        have hlt := matchSubAt_rest_lt _ _ hm
        have hr := ih rest
        simp only [List.length_cons] at hlt ⊢
        omega

theorem pyStrip_length_le (cs : List Char) : (pyStrip cs).length ≤ cs.length := by
  unfold pyStrip
  have h1 := length_dropWhile_le isPySpace cs
  have h2 := length_dropWhile_le isPySpace (cs.dropWhile isPySpace).reverse
  simp only [List.length_reverse] at *
  omega

theorem cleanPdfText_length_le (s : String) :
    (cleanPdfText s).length ≤ s.length := by
  have h1 := subMarkersF_length_le s.data.length s.data
  have h2 := pyStrip_length_le (subMarkersF s.data.length s.data)
  show (pyStrip (subMarkersF s.data.length s.data)).length ≤ s.data.length
  exact Nat.le_trans h2 h1

theorem searchMarker_eq_headF : ∀ (fuel : Nat) (cs : List Char), cs.length ≤ fuel →
    searchMarker cs = (scanMarkersF fuel cs).head? := by
  intro fuel
  induction fuel with
  | zero =>
    intro cs h
    have hnil : cs = [] := List.eq_nil_of_length_eq_zero (Nat.le_zero.mp h)
    subst hnil
    rfl
  | succ fuel ih =>
    intro cs h
    cases cs with
    | nil => rfl
    | cons c cs2 =>
      cases hm : matchMarkerAt (c :: cs2) with
      | some p =>
        obtain ⟨n, rest⟩ := p
        simp [searchMarker, scanMarkersF, hm]
      | none =>
        simp only [searchMarker, scanMarkersF, hm]
        exact ih cs2 (by simpa [List.length_cons] using Nat.le_of_succ_le_succ h)

theorem searchMarker_eq_head (cs : List Char) :
    searchMarker cs = (scanMarkers cs).head? :=
  searchMarker_eq_headF cs.length cs le_rfl

theorem toBatchesF_flatten : ∀ (fuel : Nat) (l : List String),
    (toBatchesF fuel l).flatten = l := by
  intro fuel
  induction fuel with
  | zero => intro l; cases l <;> simp [toBatchesF]
  | succ fuel ih =>
    intro l
    cases l with
    | nil => simp [toBatchesF]
    | cons t ts =>
      simp only [toBatchesF, List.flatten_cons]
      rw [ih]
      exact List.take_append_drop _ _

theorem toBatches_flatten (l : List String) : (toBatches l).flatten = l :=
  toBatchesF_flatten l.length l

theorem toBatchesF_bound : ∀ (fuel : Nat) (l : List String), l.length ≤ fuel →
    ∀ b ∈ toBatchesF fuel l, b.length ≤ batch_size := by
  intro fuel
  induction fuel with
  | zero =>
    intro l h b hb
    have hnil : l = [] := List.eq_nil_of_length_eq_zero (Nat.le_zero.mp h)
    subst hnil
    simp [toBatchesF] at hb
  | succ fuel ih =>
    intro l h b hb
    cases l with
    | nil => simp [toBatchesF] at hb
    | cons t ts =>
      simp only [toBatchesF, List.mem_cons] at hb
      rcases hb with hb | hb
      · subst hb
        rw [List.length_take]
        exact Nat.min_le_left batch_size (t :: ts).length
      · have hd : ((t :: ts).drop batch_size).length = (t :: ts).length - batch_size :=
          List.length_drop _ _
        refine ih _ ?_ b hb
        rw [hd]
        simp only [List.length_cons, batch_size] at h ⊢
        omega

theorem toBatches_bound (l : List String) :
    ∀ b ∈ toBatches l, b.length ≤ batch_size :=
  toBatchesF_bound l.length l le_rfl

/-! ### Observability-independence of value components

The value component (`.1`) of every operation is unchanged by the
presence of the observability collaborator; only the event component
(`.2`) differs. -/

theorem traceWrap_fst {α : Type} (name : String) (p : α × List String) :
    (traceWrap name p).1 = p.1 := rfl

theorem generate_embedding_fst {E : Type} (obs : Bool)
    (provider1 : String → Except String E) (text : String) :
    (generate_embedding obs provider1 text).1 =
      (generate_embedding_impl false provider1 text).1 := by
  cases obs <;>
    simp only [generate_embedding, traceWrap_fst, generate_embedding_impl,
      Bool.false_eq_true, if_false, if_true] <;>
    cases provider1 text <;> rfl

theorem generate_embeddings_batch_fst {E : Type} (obs : Bool)
    (provider : List String → Except String (List E)) (texts : List String) :
    (generate_embeddings_batch obs provider texts).1 =
      (generate_embeddings_batch_impl false provider texts).1 := by
  cases obs <;>
    simp only [generate_embeddings_batch, traceWrap_fst, generate_embeddings_batch_impl,
      Bool.false_eq_true, if_false, if_true] <;>
    cases provider texts <;> rfl

theorem batchLoop_fst {E : Type} (obs : Bool)
    (provider : List String → Except String (List E)) :
    ∀ bs, (batchLoop obs provider bs).1 = (batchLoop false provider bs).1 := by
  intro bs
  induction bs with
  | nil => rfl
  | cons b bs ih =>
    simp only [batchLoop]
    rw [generate_embeddings_batch_fst obs provider b,
      ← generate_embeddings_batch_fst false provider b]
    cases (generate_embeddings_batch false provider b).1 with
    | error e => rfl
    | ok embs =>
      simp only
      rw [ih]
      cases (batchLoop false provider bs).1 <;> rfl

theorem embed_chunks_fst {E : Type} (obs : Bool)
    (provider : List String → Except String (List E)) (chunks : List DocumentChunk) :
    (embed_chunks obs provider chunks).1 =
      (embed_chunks_impl false provider chunks).1 := by
  have himpl : (embed_chunks_impl obs provider chunks).1 =
      (embed_chunks_impl false provider chunks).1 := by
    simp only [embed_chunks_impl]
    rw [batchLoop_fst obs provider]
    cases (batchLoop false provider (toBatches (chunks.map fun c => c.text))).1 <;> rfl
  cases obs with
  | false => rfl
  | true =>
    simpa only [embed_chunks, if_true, traceWrap_fst] using himpl

theorem store_embeddings_fst {E : Type} (obs : Bool)
    (add : List (EmbeddingRecord E) → Except String Unit)
    (embedding_results : List (EmbeddingRecord E)) :
    (store_embeddings obs add embedding_results).1 =
      (store_embeddings_impl false add embedding_results).1 := by
  cases obs <;>
    simp only [store_embeddings, traceWrap_fst, store_embeddings_impl,
      Bool.false_eq_true, if_false, if_true] <;>
    rcases hres : embedding_results.isEmpty <;>
    simp only [hres, if_true, if_false, Bool.false_eq_true] <;>
    cases add embedding_results <;> rfl

theorem search_similar_fst {E : Type} (obs : Bool)
    (querySearch : E → Nat → Except String (List SearchResultItem))
    (query_embedding : E) (top_k : Nat) :
    (search_similar obs querySearch query_embedding top_k).1 =
      (search_similar_impl false querySearch query_embedding top_k).1 := by
  cases obs <;>
    simp only [search_similar, traceWrap_fst, search_similar_impl,
      Bool.false_eq_true, if_false, if_true] <;>
    cases querySearch query_embedding top_k <;> rfl

theorem ingest_document_fst {E : Type} (obs : Bool)
    (load : Except String Document)
    (split : Document → Except String (List DocumentChunk))
    (provider : List String → Except String (List E))
    (add : List (EmbeddingRecord E) → Except String Unit) :
    (ingest_document obs load split provider add).1 =
      (ingest_document_impl false load split provider add).1 := by
  have himpl : (ingest_document_impl obs load split provider add).1 =
      (ingest_document_impl false load split provider add).1 := by
    cases load with
    | error e => rfl
    | ok document =>
      cases hs : split document with
      | error e => simp [ingest_document_impl, hs]
      | ok chunks =>
        cases hc : chunks.isEmpty with
        | true => simp [ingest_document_impl, hs, hc]
        | false =>
          simp only [ingest_document_impl, hs, hc, Bool.false_eq_true, if_false]
          rw [embed_chunks_fst obs provider chunks,
            ← embed_chunks_fst false provider chunks]
          cases he : (embed_chunks false provider chunks).1 with
          | error e => simp [he]
          | ok embedding_results =>
            simp only [he]
            rw [store_embeddings_fst obs add embedding_results,
              ← store_embeddings_fst false add embedding_results]
            cases hst : (store_embeddings false add embedding_results).1 <;> simp [hst]
  cases obs with
  | false => rfl
  | true => simpa only [ingest_document, if_true, traceWrap_fst] using himpl

theorem ingest_file_fst {E : Type} (obs : Bool)
    (pdfLoad : Except String Document)
    (split : Document → Except String (List DocumentChunk))
    (provider : List String → Except String (List E))
    (add : List (EmbeddingRecord E) → Except String Unit)
    (filename : String) (document_type : String) :
    (ingest_file obs pdfLoad split provider add filename document_type).1 =
      (ingest_file_impl false pdfLoad split provider add filename document_type).1 := by
  have himpl : (ingest_file_impl obs pdfLoad split provider add filename document_type).1 =
      (ingest_file_impl false pdfLoad split provider add filename document_type).1 := by
    cases hd : (if document_type = "pdf" then pdfLoad
        else .error ("type: " ++ document_type ++ " not supported") :
        Except String Document) with
    | error e => simp [ingest_file_impl, hd]
    | ok document =>
      cases hs : split document with
      | error e => simp [ingest_file_impl, hd, hs]
      | ok chunks =>
        cases hc : chunks.isEmpty with
        | true => simp [ingest_file_impl, hd, hs, hc]
        | false =>
          simp only [ingest_file_impl, hd, hs, hc, Bool.false_eq_true, if_false]
          rw [embed_chunks_fst obs provider chunks,
            ← embed_chunks_fst false provider chunks]
          cases he : (embed_chunks false provider chunks).1 with
          | error e => simp [he]
          | ok embedding_results =>
            simp only [he]
            rw [store_embeddings_fst obs add embedding_results,
              ← store_embeddings_fst false add embedding_results]
            cases hst : (store_embeddings false add embedding_results).1 <;> simp [hst]
  cases obs with
  | false => rfl
  | true => simpa only [ingest_file, if_true, traceWrap_fst] using himpl

theorem query_documents_fst {E : Type} (obs : Bool)
    (provider1 : String → Except String E)
    (querySearch : E → Nat → Except String (List SearchResultItem))
    (generateAnswer : String → List SearchResultItem → Except String String)
    (question : String) :
    (query_documents obs provider1 querySearch generateAnswer question).1 =
      (query_documents_impl false provider1 querySearch generateAnswer question).1 := by
  have himpl : (query_documents_impl obs provider1 querySearch generateAnswer question).1 =
      (query_documents_impl false provider1 querySearch generateAnswer question).1 := by
    simp only [query_documents_impl]
    rw [generate_embedding_fst obs provider1 question,
      ← generate_embedding_fst false provider1 question]
    cases hq : (generate_embedding false provider1 question).1 with
    | error e => simp [hq]
    | ok question_embedding =>
      simp only [hq]
      rw [search_similar_fst obs querySearch question_embedding 5,
        ← search_similar_fst false querySearch question_embedding 5]
      cases hsr : (search_similar false querySearch question_embedding 5).1 with
      | error e => simp [hsr]
      | ok similar_chunks =>
        simp only [hsr]
        cases hc : similar_chunks.isEmpty with
        | true => simp [hc]
        | false =>
          simp only [hc, Bool.false_eq_true, if_false]
          cases hg : generateAnswer question similar_chunks <;> simp [hg]
  cases obs with
  | false => rfl
  | true => simpa only [query_documents, if_true, traceWrap_fst] using himpl

/-! ## Claims -/

/-- C6: every core operation (ingest, file ingest, embed, store, search,
query) returns an identical result whether the observability collaborator
is present (`obs = true`) or absent (`obs = false`): the collaborator
observes (the event logs differ) but never changes control flow or
outputs. -/
theorem observability_preserves_results (E : Type) :
    (∀ (load : Except String Document)
       (split : Document → Except String (List DocumentChunk))
       (provider : List String → Except String (List E))
       (add : List (EmbeddingRecord E) → Except String Unit),
       (ingest_document true load split provider add).1 =
         (ingest_document false load split provider add).1) ∧
    (∀ (pdfLoad : Except String Document)
       (split : Document → Except String (List DocumentChunk))
       (provider : List String → Except String (List E))
       (add : List (EmbeddingRecord E) → Except String Unit)
       (filename document_type : String),
       (ingest_file true pdfLoad split provider add filename document_type).1 =
         (ingest_file false pdfLoad split provider add filename document_type).1) ∧
    (∀ (provider1 : String → Except String E) (text : String),
       (generate_embedding true provider1 text).1 =
         (generate_embedding false provider1 text).1) ∧
    (∀ (provider : List String → Except String (List E)) (chunks : List DocumentChunk),
       (embed_chunks true provider chunks).1 = (embed_chunks false provider chunks).1) ∧
    (∀ (add : List (EmbeddingRecord E) → Except String Unit)
       (results : List (EmbeddingRecord E)),
       (store_embeddings true add results).1 = (store_embeddings false add results).1) ∧
    (∀ (querySearch : E → Nat → Except String (List SearchResultItem)) (qe : E) (k : Nat),
       (search_similar true querySearch qe k).1 = (search_similar false querySearch qe k).1) ∧
    (∀ (provider1 : String → Except String E)
       (querySearch : E → Nat → Except String (List SearchResultItem))
       (generateAnswer : String → List SearchResultItem → Except String String)
       (question : String),
       (query_documents true provider1 querySearch generateAnswer question).1 =
         (query_documents false provider1 querySearch generateAnswer question).1) := by
  refine ⟨fun load split provider add => ?_, fun pdfLoad split provider add fn dt => ?_,
    fun provider1 text => ?_, fun provider chunks => ?_, fun add results => ?_,
    fun querySearch qe k => ?_, fun provider1 querySearch generateAnswer question => ?_⟩
  · exact (ingest_document_fst true load split provider add).trans
      (ingest_document_fst false load split provider add).symm
  · exact (ingest_file_fst true pdfLoad split provider add fn dt).trans
      (ingest_file_fst false pdfLoad split provider add fn dt).symm
  · exact (generate_embedding_fst true provider1 text).trans
      (generate_embedding_fst false provider1 text).symm
  · exact (embed_chunks_fst true provider chunks).trans
      (embed_chunks_fst false provider chunks).symm
  · exact (store_embeddings_fst true add results).trans
      (store_embeddings_fst false add results).symm
  · exact (search_similar_fst true querySearch qe k).trans
      (search_similar_fst false querySearch qe k).symm
  · exact (query_documents_fst true provider1 querySearch generateAnswer question).trans
      (query_documents_fst false provider1 querySearch generateAnswer question).symm

/-- C1 (counterexample): the claim says an ingestion whose chunking yields
zero chunks returns a successful non-error Done(empty) result; on a
concrete run (empty text document, splitter yielding no chunks) the
orchestrator instead returns a structured result with status "error",
which is not "success". -/
theorem zero_chunks_not_success_cex :
    (ingest_document false
        (.ok ⟨"", { type := some "text" }⟩)
        (fun _ => .ok ([] : List DocumentChunk))
        (fun _ => .ok ([] : List Unit))
        (fun _ => .ok ())).1 =
      ⟨"error", "No chunks were created from the document", 0, none⟩ ∧
    "error" ≠ "success" := ⟨rfl, by decide⟩

/-- C1 (amended): when chunking yields zero chunks, both ingestion paths
short-circuit before the embedding and indexing stages, but the returned
structured result has status "error" (message "No chunks were created
from the document" / "No chunks were created", chunks_created 0), not a
success: the code treats zero chunks as a reportable failure. -/
theorem zero_chunks_error_short_circuit {E : Type} (obs : Bool)
    (load pdfLoad : Except String Document)
    (split : Document → Except String (List DocumentChunk))
    (provider : List String → Except String (List E))
    (add : List (EmbeddingRecord E) → Except String Unit)
    (document fdoc : Document) (filename : String)
    (hl : load = .ok document) (hs : split document = .ok [])
    (hp : pdfLoad = .ok fdoc) (hfs : split fdoc = .ok []) :
    (ingest_document obs load split provider add).1 =
      ⟨"error", "No chunks were created from the document", 0, none⟩ ∧
    (ingest_file obs pdfLoad split provider add filename "pdf").1 =
      ⟨"error", "No chunks were created", 0, none⟩ := by
  constructor
  · rw [ingest_document_fst]
    subst hl
    simp [ingest_document_impl, hs]
  · rw [ingest_file_fst]
    subst hp
    simp [ingest_file_impl, hfs]

theorem zero_chunks_error_short_circuit_wit :
    (ingest_document false (.ok ⟨"", { type := some "text" }⟩)
        (fun _ => .ok []) (fun _ => .ok ([] : List Unit)) (fun _ => .ok ())).1 =
      ⟨"error", "No chunks were created from the document", 0, none⟩ ∧
    (ingest_file false (.ok ⟨"", { type := some "pdf" }⟩)
        (fun _ => .ok []) (fun _ => .ok ([] : List Unit)) (fun _ => .ok ())
        "empty.pdf" "pdf").1 =
      ⟨"error", "No chunks were created", 0, none⟩ :=
  zero_chunks_error_short_circuit false
    (.ok ⟨"", { type := some "text" }⟩) (.ok ⟨"", { type := some "pdf" }⟩)
    (fun _ => .ok []) (fun _ => .ok ([] : List Unit)) (fun _ => .ok ())
    ⟨"", { type := some "text" }⟩ ⟨"", { type := some "pdf" }⟩ "empty.pdf"
    rfl rfl rfl rfl

/-- C8 (counterexample): the claim says every configuration with
chunk_overlap ≥ chunk_size (chunk_size > 0) is rejected at construction;
but at chunk_size = 5, chunk_overlap = 5 (overlap equal to size)
construction succeeds. -/
theorem overlap_eq_size_accepted_cex :
    (0 : Int) < 5 ∧ (5 : Int) ≥ 5 ∧
      smart_text_splitter_init 5 5 = .ok ⟨5, 5⟩ := by
  refine ⟨by decide, by decide, rfl⟩

/-- C8 (amended): construction of the splitter is rejected (with the
langchain ValueError message) precisely when chunk_overlap is strictly
greater than chunk_size; chunk_overlap equal to chunk_size is accepted. -/
theorem overlap_gt_size_rejected (chunk_size chunk_overlap : Int)
    (hpos : 0 < chunk_size) :
    (chunk_size < chunk_overlap →
       smart_text_splitter_init chunk_size chunk_overlap =
         .error ("Got a larger chunk overlap (" ++ toString chunk_overlap ++
           ") than chunk size (" ++ toString chunk_size ++ "), should be smaller.")) ∧
    (chunk_overlap ≤ chunk_size →
       smart_text_splitter_init chunk_size chunk_overlap =
         .ok ⟨chunk_size, chunk_overlap⟩) := by
  constructor
  · intro h
    simp [smart_text_splitter_init, recursive_splitter_init_check, h]
  · intro h
    simp [smart_text_splitter_init, recursive_splitter_init_check, not_lt.mpr h]

theorem overlap_gt_size_rejected_wit :
    smart_text_splitter_init 10 20 =
      .error "Got a larger chunk overlap (20) than chunk size (10), should be smaller." ∧
    smart_text_splitter_init 10 5 = .ok ⟨10, 5⟩ :=
  ⟨(overlap_gt_size_rejected 10 20 (by decide)).1 (by decide),
   (overlap_gt_size_rejected 10 5 (by decide)).2 (by decide)⟩

/-- C10: content beginning with "http://" or "https://" is always handed
to the URL loader (fetched over the network), never treated as literal
document text, for every document_type; in particular for a non-pdf,
non-html type the indexed text is the fetched response body, not the
given content string. -/
theorem url_content_always_fetched
    (fetch : String → Except String String)
    (fetchPdf pdfOpenPath : String → Except String (List (Option String)))
    (htmlToText : String → String)
    (content document_type : String)
    (h : pyStartsWith content "http://" = true ∨ pyStartsWith content "https://" = true) :
    load_document fetch fetchPdf pdfOpenPath htmlToText content document_type =
      load_from_url fetch fetchPdf htmlToText content document_type ∧
    (∀ body, fetch content = .ok body → document_type ≠ "pdf" → document_type ≠ "html" →
       load_document fetch fetchPdf pdfOpenPath htmlToText content document_type =
         .ok ⟨body, { source := some content, type := some document_type }⟩) := by
  have hcond : (pyStartsWith content "http://" || pyStartsWith content "https://") = true := by
    rcases h with h | h <;> simp [h]
  constructor
  · simp [load_document, hcond]
  · intro body hb hpdf hhtml
    simp [load_document, hcond, load_from_url, hpdf, hb, hhtml, load_text]

theorem url_content_always_fetched_wit :
    load_document (fun _ => .ok "FETCHED BODY") (fun _ => .error "no pdf")
        (fun _ => .error "no pdf") (fun s => s) "http://example.com/doc" "text" =
      .ok ⟨"FETCHED BODY",
        { source := some "http://example.com/doc", type := some "text" }⟩ ∧
    pyStartsWith "http://example.com/doc" "http://" = true :=
  ⟨(url_content_always_fetched (fun _ => .ok "FETCHED BODY") (fun _ => .error "no pdf")
      (fun _ => .error "no pdf") (fun s => s) "http://example.com/doc" "text"
      (Or.inl (by decide))).2 "FETCHED BODY" rfl (by decide) (by decide),
   by decide⟩

/-- C2: when the similarity search returns zero results, the query
returns the fixed no-relevant-documents answer with an empty sources
list, and the result is identical for any two generation functions — the
LLM generation capability is never invoked on that call. -/
theorem no_context_short_circuit {E : Type} (obs : Bool)
    (provider1 : String → Except String E)
    (querySearch : E → Nat → Except String (List SearchResultItem))
    (g1 g2 : String → List SearchResultItem → Except String String)
    (question : String) (qv : E)
    (hq : provider1 question = .ok qv)
    (hs : querySearch qv 5 = .ok []) :
    (query_documents obs provider1 querySearch g1 question).1 =
      ⟨no_context_answer, []⟩ ∧
    query_documents obs provider1 querySearch g1 question =
      query_documents obs provider1 querySearch g2 question := by
  refine ⟨?_, ?_⟩ <;>
    cases obs <;>
      simp [query_documents, query_documents_impl, traceWrap,
        generate_embedding, generate_embedding_impl, hq,
        search_similar, search_similar_impl, hs, logIf]

theorem no_context_short_circuit_wit :
    (query_documents false (fun _ => .ok (0 : Nat)) (fun _ _ => .ok [])
        (fun _ _ => .ok "MUST NOT RUN") "any question").1 =
      ⟨no_context_answer, []⟩ ∧
    query_documents false (fun _ => .ok (0 : Nat)) (fun _ _ => .ok [])
        (fun _ _ => .ok "MUST NOT RUN") "any question" =
      query_documents false (fun _ => .ok (0 : Nat)) (fun _ _ => .ok [])
        (fun _ _ => .error "ALSO NEVER RUN") "any question" :=
  no_context_short_circuit false (fun _ => .ok (0 : Nat)) (fun _ _ => .ok [])
    (fun _ _ => .ok "MUST NOT RUN") (fun _ _ => .error "ALSO NEVER RUN")
    "any question" 0 rfl rfl

/-- C3: an exception in any ingestion stage (loading, chunking, embedding,
indexing) yields a structured result with status "error", a human-readable
message carrying the exception text, and chunks_created 0; an exception in
any query stage (question embedding, search, generation) yields an Answer
whose text carries the error description and whose sources list is empty —
the orchestrator never re-raises. -/
theorem stage_failures_contained (E : Type) :
    (∀ (obs : Bool) (e : String)
       (split : Document → Except String (List DocumentChunk))
       (provider : List String → Except String (List E))
       (add : List (EmbeddingRecord E) → Except String Unit),
       (ingest_document obs (.error e) split provider add).1 =
         ⟨"error", "Failed to ingest document: " ++ e, 0, none⟩) ∧
    (∀ (obs : Bool) (load : Except String Document) split
       (provider : List String → Except String (List E)) add document e,
       load = .ok document → split document = .error e →
       (ingest_document obs load split provider add).1 =
         ⟨"error", "Failed to ingest document: " ++ e, 0, none⟩) ∧
    (∀ (obs : Bool) (load : Except String Document) split
       (provider : List String → Except String (List E)) add document chunks e,
       load = .ok document → split document = .ok chunks → chunks ≠ [] →
       (embed_chunks false provider chunks).1 = .error e →
       (ingest_document obs load split provider add).1 =
         ⟨"error", "Failed to ingest document: " ++ e, 0, none⟩) ∧
    (∀ (obs : Bool) (load : Except String Document) split
       (provider : List String → Except String (List E)) add document chunks results e,
       load = .ok document → split document = .ok chunks → chunks ≠ [] →
       (embed_chunks false provider chunks).1 = .ok results →
       (store_embeddings false add results).1 = .error e →
       (ingest_document obs load split provider add).1 =
         ⟨"error", "Failed to ingest document: " ++ e, 0, none⟩) ∧
    (∀ (obs : Bool) (provider1 : String → Except String E) querySearch
       (generateAnswer : String → List SearchResultItem → Except String String)
       (question e : String),
       provider1 question = .error e →
       (query_documents obs provider1 querySearch generateAnswer question).1 =
         ⟨"An error occurred while processing your question: Failed to generate embedding: "
            ++ e, []⟩) ∧
    (∀ (obs : Bool) (provider1 : String → Except String E) querySearch
       (generateAnswer : String → List SearchResultItem → Except String String)
       (question e : String) (qv : E),
       provider1 question = .ok qv → querySearch qv 5 = .error e →
       (query_documents obs provider1 querySearch generateAnswer question).1 =
         ⟨"An error occurred while processing your question: Failed to search similar documents: "
            ++ e, []⟩) ∧
    (∀ (obs : Bool) (provider1 : String → Except String E) querySearch
       (generateAnswer : String → List SearchResultItem → Except String String)
       (question e : String) (qv : E) (similar_chunks : List SearchResultItem),
       provider1 question = .ok qv → querySearch qv 5 = .ok similar_chunks →
       similar_chunks ≠ [] → generateAnswer question similar_chunks = .error e →
       (query_documents obs provider1 querySearch generateAnswer question).1 =
         ⟨"An error occurred while processing your question: " ++ e, []⟩) := by
  refine ⟨?_, ?_, ?_, ?_, ?_, ?_, ?_⟩
  · intro obs e split provider add
    rw [ingest_document_fst]
    rfl
  · intro obs load split provider add document e hl hs
    rw [ingest_document_fst]
    subst hl
    simp [ingest_document_impl, hs, ingestErrorResponse]
  · intro obs load split provider add document chunks e hl hs hne hemb
    rw [ingest_document_fst]
    subst hl
    obtain ⟨c, cs, rfl⟩ := List.exists_cons_of_ne_nil hne
    simp [ingest_document_impl, hs, hemb, ingestErrorResponse]
  · intro obs load split provider add document chunks results e hl hs hne hemb hst
    rw [ingest_document_fst]
    subst hl
    obtain ⟨c, cs, rfl⟩ := List.exists_cons_of_ne_nil hne
    simp [ingest_document_impl, hs, hemb, hst, ingestErrorResponse]
  · intro obs provider1 querySearch generateAnswer question e hq
    rw [query_documents_fst]
    simp [query_documents_impl, generate_embedding, generate_embedding_impl, hq,
      queryErrorResponse]
    rw [← String.append_assoc]
    rfl
  · intro obs provider1 querySearch generateAnswer question e qv hq hs
    rw [query_documents_fst]
    simp [query_documents_impl, generate_embedding, generate_embedding_impl, hq,
      search_similar, search_similar_impl, hs, queryErrorResponse]
    rw [← String.append_assoc]
    rfl
  · intro obs provider1 querySearch generateAnswer question e qv similar_chunks hq hs hne hg
    rw [query_documents_fst]
    obtain ⟨c, cs, rfl⟩ := List.exists_cons_of_ne_nil hne
    simp [query_documents_impl, generate_embedding, generate_embedding_impl, hq,
      search_similar, search_similar_impl, hs, hg, queryErrorResponse]

theorem stage_failures_contained_wit :
    (ingest_document false (.error "load boom")
        (fun _ => .ok ([] : List DocumentChunk))
        (fun _ => .ok ([] : List Unit))
        (fun _ => .ok ())).1 =
      ⟨"error", "Failed to ingest document: load boom", 0, none⟩ ∧
    (ingest_document false (.ok (⟨"t", {}⟩ : Document))
        (fun _ => .error "split boom")
        (fun _ => .ok ([] : List Unit))
        (fun _ => .ok ())).1 =
      ⟨"error", "Failed to ingest document: split boom", 0, none⟩ ∧
    (ingest_document false (.ok (⟨"t", {}⟩ : Document))
        (fun _ => .ok [sampleChunk])
        (fun _ => (.error "quota" : Except String (List Unit)))
        (fun _ => .ok ())).1 =
      ⟨"error", "Failed to ingest document: Failed to generate batch embeddings: quota",
        0, none⟩ ∧
    (ingest_document false (.ok (⟨"t", {}⟩ : Document))
        (fun _ => .ok [sampleChunk])
        (fun ts => .ok (ts.map fun _ => ()))
        (fun _ => .error "disk")).1 =
      ⟨"error", "Failed to ingest document: Failed to store embeddings: disk", 0, none⟩ ∧
    (query_documents false (fun _ => (.error "down" : Except String Nat))
        (fun _ _ => .ok []) (fun _ _ => .ok "") "q").1 =
      ⟨"An error occurred while processing your question: Failed to generate embedding: down",
        []⟩ ∧
    (query_documents false (fun _ => .ok (0 : Nat))
        (fun _ _ => .error "index gone") (fun _ _ => .ok "") "q").1 =
      ⟨"An error occurred while processing your question: Failed to search similar documents: index gone",
        []⟩ ∧
    (query_documents false (fun _ => .ok (0 : Nat))
        (fun _ _ => .ok [⟨"ctx", none⟩])
        (fun _ _ => .error "llm 500") "q").1 =
      ⟨"An error occurred while processing your question: llm 500", []⟩ :=
  ⟨(stage_failures_contained Unit).1 false "load boom"
      (fun _ => .ok ([] : List DocumentChunk)) (fun _ => .ok ([] : List Unit))
      (fun _ => .ok ()),
   (stage_failures_contained Unit).2.1 false (.ok (⟨"t", {}⟩ : Document))
      (fun _ => .error "split boom") (fun _ => .ok ([] : List Unit)) (fun _ => .ok ())
      (⟨"t", {}⟩ : Document) "split boom" rfl rfl,
   (stage_failures_contained Unit).2.2.1 false (.ok (⟨"t", {}⟩ : Document))
      (fun _ => .ok [sampleChunk]) (fun _ => (.error "quota" : Except String (List Unit)))
      (fun _ => .ok ()) (⟨"t", {}⟩ : Document) [sampleChunk]
      "Failed to generate batch embeddings: quota" rfl rfl (by decide) rfl,
   (stage_failures_contained Unit).2.2.2.1 false (.ok (⟨"t", {}⟩ : Document))
      (fun _ => .ok [sampleChunk]) (fun ts => .ok (ts.map fun _ => ()))
      (fun _ => .error "disk") (⟨"t", {}⟩ : Document) [sampleChunk]
      [⟨(), "hello", ⟨{}, 0, 1, 5, 5, none⟩, "id0"⟩]
      "Failed to store embeddings: disk" rfl rfl (by decide) rfl rfl,
   (stage_failures_contained Unit).2.2.2.2.1 false
      (fun _ => (.error "down" : Except String Nat)) (fun _ _ => .ok [])
      (fun _ _ => .ok "") "q" "down" rfl,
   (stage_failures_contained Unit).2.2.2.2.2.1 false (fun _ => .ok (0 : Nat))
      (fun _ _ => .error "index gone") (fun _ _ => .ok "") "q" "index gone" 0 rfl rfl,
   (stage_failures_contained Unit).2.2.2.2.2.2 false (fun _ => .ok (0 : Nat))
      (fun _ _ => .ok [⟨"ctx", none⟩]) (fun _ _ => .error "llm 500") "q" "llm 500" 0
      [⟨"ctx", none⟩] rfl rfl (by decide) rfl⟩

theorem batchLoop_ok {E : Type} (obs : Bool)
    (provider : List String → Except String (List E)) (f : String → E)
    (hprov : ∀ ts, provider ts = .ok (ts.map f)) :
    ∀ bs, (batchLoop obs provider bs).1 = .ok (bs.flatten.map f) := by
  intro bs
  induction bs with
  | nil => cases obs <;> rfl
  | cons b bs ih =>
    have hb : (generate_embeddings_batch obs provider b).1 = .ok (b.map f) := by
      rw [generate_embeddings_batch_fst]
      simp [generate_embeddings_batch_impl, hprov b]
    simp only [batchLoop, hb]
    rw [ih]
    simp [List.flatten_cons, List.map_append]

theorem zipRecords_map {E : Type} (f : String → E) :
    ∀ (chunks : List DocumentChunk),
      zipRecords chunks ((chunks.map fun c => c.text).map f) =
        chunks.map fun c =>
          (⟨f c.text, c.text, c.metadata, c.chunk_id⟩ : EmbeddingRecord E) := by
  intro chunks
  induction chunks with
  | nil => rfl
  | cons c cs ih =>
    simp only [List.map_cons, zipRecords, List.zipWith_cons_cons] at ih ⊢
    rw [ih]

/-- C7: assuming the provider returns exactly one vector per input text
(pointwise described by `f`), embed_chunks returns exactly one
EmbeddingRecord per input chunk, in input order, pairing the i-th chunk's
text, metadata and chunk_id with the embedding of the i-th chunk's text;
the texts are issued in batches of at most 100, sequentially in input
order (their concatenation is the original text sequence). -/
theorem embed_chunks_one_to_one {E : Type} (obs : Bool)
    (provider : List String → Except String (List E)) (f : String → E)
    (chunks : List DocumentChunk)
    (hprov : ∀ ts, provider ts = .ok (ts.map f)) :
    (embed_chunks obs provider chunks).1 =
      .ok (chunks.map fun c =>
        (⟨f c.text, c.text, c.metadata, c.chunk_id⟩ : EmbeddingRecord E)) ∧
    (∀ b ∈ toBatches (chunks.map fun c => c.text), b.length ≤ 100) ∧
    (toBatches (chunks.map fun c => c.text)).flatten =
      chunks.map fun c => c.text := by
  refine ⟨?_, ?_, toBatches_flatten _⟩
  · rw [embed_chunks_fst]
    simp only [embed_chunks_impl, batchLoop_ok false provider f hprov]
    rw [toBatches_flatten, zipRecords_map]
  · intro b hb
    exact toBatches_bound _ b hb

theorem embed_chunks_one_to_one_wit :
    (embed_chunks false (fun ts => .ok (ts.map String.length))
        [sampleChunk, ⟨"world!", ⟨{}, 1, 2, 6, 12, none⟩, "id1"⟩]).1 =
      .ok [⟨5, "hello", ⟨{}, 0, 1, 5, 5, none⟩, "id0"⟩,
           ⟨6, "world!", ⟨{}, 1, 2, 6, 12, none⟩, "id1"⟩] :=
  (embed_chunks_one_to_one false (fun ts => .ok (ts.map String.length)) String.length
    [sampleChunk, ⟨"world!", ⟨{}, 1, 2, 6, 12, none⟩, "id1"⟩] (fun _ => rfl)).1

theorem batchLoop_error_prefix {E : Type}
    (provider : List String → Except String (List E)) :
    ∀ bs e, (batchLoop false provider bs).1 = .error e →
      ∃ r, e = "Failed to generate batch embeddings: " ++ r := by
  intro bs
  induction bs with
  | nil => intro e h; simp [batchLoop] at h
  | cons b bs ih =>
    intro e h
    simp only [batchLoop, generate_embeddings_batch, Bool.false_eq_true, if_false,
      generate_embeddings_batch_impl] at h
    cases hp : provider b with
    | error pe =>
      rw [hp] at h
      simp only at h
      exact ⟨pe, (Except.error.inj h).symm⟩
    | ok embs =>
      rw [hp] at h
      simp only at h
      cases hr : (batchLoop false provider bs).1 with
      | error e2 =>
        rw [hr] at h
        simp only at h
        exact (Except.error.inj h) ▸ ih e2 hr
      | ok more =>
        rw [hr] at h
        simp at h

theorem embed_chunks_error_prefix {E : Type} (obs : Bool)
    (provider : List String → Except String (List E)) (chunks : List DocumentChunk)
    (e : String) (h : (embed_chunks obs provider chunks).1 = .error e) :
    ∃ r, e = "Failed to generate batch embeddings: " ++ r := by
  rw [embed_chunks_fst] at h
  simp only [embed_chunks_impl] at h
  cases hb : (batchLoop false provider (toBatches (chunks.map fun c => c.text))).1 with
  | error e2 =>
    rw [hb] at h
    simp only at h
    exact (Except.error.inj h) ▸ batchLoop_error_prefix provider _ e2 hb
  | ok all =>
    rw [hb] at h
    simp at h

theorem batchLoop_any_failure {E : Type}
    (provider : List String → Except String (List E)) :
    ∀ bs, (∃ b ∈ bs, ∀ v, provider b ≠ .ok v) →
      ∃ e, (batchLoop false provider bs).1 = .error e := by
  intro bs
  induction bs with
  | nil =>
    rintro ⟨b, hb, _⟩
    simp at hb
  | cons b bs ih =>
    rintro ⟨b2, hb2, hfail⟩
    cases hp : provider b with
    | error pe =>
      refine ⟨"Failed to generate batch embeddings: " ++ pe, ?_⟩
      simp [batchLoop, generate_embeddings_batch, generate_embeddings_batch_impl, hp]
    | ok v =>
      have hbs : b2 ∈ bs := by
        rcases List.mem_cons.mp hb2 with rfl | hmem
        · exact absurd hp (hfail v)
        · exact hmem
      obtain ⟨e, he⟩ := ih ⟨b2, hbs, hfail⟩
      refine ⟨e, ?_⟩
      simp [batchLoop, generate_embeddings_batch, generate_embeddings_batch_impl, hp, he]

/-- C5: a provider failure in any batch aborts the whole embed call with
no partial result (the call returns an error, not a list); every
embedding failure carries the fixed "Failed to generate batch embeddings"
description, every indexing failure the fixed "Failed to store
embeddings" description (and the loader's PDF failures a third one), and
no error value can carry two of these descriptions at once, so the
orchestrator can attribute blame. -/
theorem embedding_failure_aborts_typed (E : Type) :
    (∀ (obs : Bool) (provider : List String → Except String (List E))
       (chunks : List DocumentChunk),
       (∃ b ∈ toBatches (chunks.map fun c => c.text), ∀ v, provider b ≠ .ok v) →
       ∃ e, (embed_chunks obs provider chunks).1 = .error e ∧
         ∃ r, e = "Failed to generate batch embeddings: " ++ r) ∧
    (∀ (obs : Bool) (provider : List String → Except String (List E)) chunks e,
       (embed_chunks obs provider chunks).1 = .error e →
       ∃ r, e = "Failed to generate batch embeddings: " ++ r) ∧
    (∀ (obs : Bool) (add : List (EmbeddingRecord E) → Except String Unit) results e,
       (store_embeddings obs add results).1 = .error e →
       ∃ r, e = "Failed to store embeddings: " ++ r) ∧
    (∀ r1 r2 : String,
       "Failed to generate batch embeddings: " ++ r1 ≠
         "Failed to store embeddings: " ++ r2) ∧
    (∀ r1 r2 : String,
       "Failed to generate batch embeddings: " ++ r1 ≠
         "Failed to process PDF: " ++ r2) := by
  refine ⟨?_, ?_, ?_, ?_, ?_⟩
  · intro obs provider chunks hex
    obtain ⟨e, he⟩ := batchLoop_any_failure provider _ hex
    have hval : (embed_chunks obs provider chunks).1 = .error e := by
      rw [embed_chunks_fst]
      simp [embed_chunks_impl, he]
    exact ⟨e, hval, embed_chunks_error_prefix obs provider chunks e hval⟩
  · exact fun obs provider chunks e h => embed_chunks_error_prefix obs provider chunks e h
  · intro obs add results e h
    rw [store_embeddings_fst] at h
    simp only [store_embeddings_impl] at h
    cases hres : results.isEmpty with
    | true => rw [hres] at h; simp at h
    | false =>
      rw [hres] at h
      simp only [Bool.false_eq_true, if_false] at h
      cases ha : add results with
      | ok _ => rw [ha] at h; simp at h
      | error ae =>
        rw [ha] at h
        simp only at h
        exact ⟨ae, (Except.error.inj h).symm⟩
  · intro r1 r2 h
    have h2 := congrArg (fun s : String => s.data.take 11) h
    simp only [String.data_append] at h2
    rw [List.take_append_of_le_length (by decide),
      List.take_append_of_le_length (by decide)] at h2
    exact absurd h2 (by decide)
  · intro r1 r2 h
    have h2 := congrArg (fun s : String => s.data.take 11) h
    simp only [String.data_append] at h2
    rw [List.take_append_of_le_length (by decide),
      List.take_append_of_le_length (by decide)] at h2
    exact absurd h2 (by decide)

theorem embedding_failure_aborts_typed_wit :
    (∃ e, (embed_chunks false (fun _ => (.error "quota" : Except String (List Unit)))
        [sampleChunk]).1 = .error e ∧
      ∃ r, e = "Failed to generate batch embeddings: " ++ r) ∧
    (∃ r, "Failed to generate batch embeddings: quota" =
      "Failed to generate batch embeddings: " ++ r) ∧
    (∃ r, "Failed to store embeddings: disk" = "Failed to store embeddings: " ++ r) ∧
    "Failed to generate batch embeddings: x" ≠ "Failed to store embeddings: y" ∧
    "Failed to generate batch embeddings: x" ≠ "Failed to process PDF: y" :=
  ⟨(embedding_failure_aborts_typed Unit).1 false
      (fun _ => (.error "quota" : Except String (List Unit))) [sampleChunk]
      ⟨["hello"], by decide, fun v hv => Except.noConfusion hv⟩,
   (embedding_failure_aborts_typed Unit).2.1 false
      (fun _ => (.error "quota" : Except String (List Unit))) [sampleChunk]
      "Failed to generate batch embeddings: quota" rfl,
   (embedding_failure_aborts_typed Unit).2.2.1 false (fun _ => .error "disk")
      [⟨(), "hello", ⟨{}, 0, 1, 5, 5, none⟩, "id0"⟩]
      "Failed to store embeddings: disk" rfl,
   (embedding_failure_aborts_typed Unit).2.2.2.1 "x" "y",
   (embedding_failure_aborts_typed Unit).2.2.2.2 "x" "y"⟩

theorem split_document_length (freshId : Nat → String) (pieces : List String)
    (document : Document) :
    (split_document freshId pieces document).length = pieces.length := by
  simp [split_document]

theorem split_document_get (freshId : Nat → String) (pieces : List String)
    (document : Document) (i : Nat) (hi : i < pieces.length)
    (ho : i < (split_document freshId pieces document).length) :
    (split_document freshId pieces document).get ⟨i, ho⟩ =
      (let content := pieces.get ⟨i, hi⟩
       let md : ChunkMetadata :=
         ⟨document.metadata, i, pieces.length, content.length,
          document.page_content.length, none⟩
       if document.metadata.type = some "pdf" then
         { text := cleanPdfText content,
           metadata :=
             match extract_page_number content with
             | some n => if n = 0 then md else { md with page := some n }
             | none => md,
           chunk_id := freshId i }
       else ⟨content, md, freshId i⟩) := by
  simp only [split_document, List.get_eq_getElem, List.getElem_map, List.getElem_enum]

/-- C4 (counterexample): for a PDF-typed document, a chunk containing a
page marker has chunk_size computed from the raw text before the marker
is stripped: the single chunk of this concrete document has
chunk_size 21 but text "hello" of length 5. -/
theorem chunk_size_stripped_pdf_cex :
    split_document (fun _ => "cid") ["\n--- Page 1 ---\nhello"]
        ⟨"\n--- Page 1 ---\nhello", { type := some "pdf", total_pages := some 1 }⟩ =
      [⟨"hello",
        ⟨{ type := some "pdf", total_pages := some 1 }, 0, 1, 21, 21, some 1⟩,
        "cid"⟩] ∧
    ("hello" : String).length = 5 ∧ (5 : Nat) ≠ 21 := by
  refine ⟨by decide, rfl, by decide⟩

/-- C4 (amended): every chunk's chunk_size metadata equals the length of
the corresponding raw splitter piece — the chunk's text before
page-marker stripping.  For non-PDF documents that is exactly the length
of the chunk's text field; for PDF-typed documents the text field is the
stripped text, whose length never exceeds chunk_size. -/
theorem chunk_size_is_raw_length (freshId : Nat → String) (pieces : List String)
    (document : Document) (i : Nat) (hi : i < pieces.length) :
    ∃ ho : i < (split_document freshId pieces document).length,
      ((split_document freshId pieces document).get ⟨i, ho⟩).metadata.chunk_size =
        (pieces.get ⟨i, hi⟩).length ∧
      ((split_document freshId pieces document).get ⟨i, ho⟩).text.length ≤
        ((split_document freshId pieces document).get ⟨i, ho⟩).metadata.chunk_size ∧
      (document.metadata.type ≠ some "pdf" →
        ((split_document freshId pieces document).get ⟨i, ho⟩).metadata.chunk_size =
          ((split_document freshId pieces document).get ⟨i, ho⟩).text.length) := by
  have ho : i < (split_document freshId pieces document).length := by
    rw [split_document_length]
    exact hi
  refine ⟨ho, ?_⟩
  rw [split_document_get freshId pieces document i hi ho]
  by_cases hpdf : document.metadata.type = some "pdf"
  · cases hpn : extract_page_number pieces[i] with
    | some n =>
      by_cases hz : n = 0
      · subst hz
        simp [hpdf, hpn, cleanPdfText_length_le]
      · simp [hpdf, hpn, hz, cleanPdfText_length_le]
    | none => simp [hpdf, hpn, cleanPdfText_length_le]
  · simp [hpdf]

theorem chunk_size_is_raw_length_wit :
    ∃ ho : 0 < (split_document (fun _ => "w") ["abc"]
        ⟨"abc", { type := some "text" }⟩).length,
      ((split_document (fun _ => "w") ["abc"]
          ⟨"abc", { type := some "text" }⟩).get ⟨0, ho⟩).metadata.chunk_size =
        ("abc" : String).length ∧
      ((split_document (fun _ => "w") ["abc"]
          ⟨"abc", { type := some "text" }⟩).get ⟨0, ho⟩).text.length ≤
        ((split_document (fun _ => "w") ["abc"]
          ⟨"abc", { type := some "text" }⟩).get ⟨0, ho⟩).metadata.chunk_size ∧
      ((⟨"abc", { type := some "text" }⟩ : Document).metadata.type ≠ some "pdf" →
        ((split_document (fun _ => "w") ["abc"]
            ⟨"abc", { type := some "text" }⟩).get ⟨0, ho⟩).metadata.chunk_size =
          ((split_document (fun _ => "w") ["abc"]
            ⟨"abc", { type := some "text" }⟩).get ⟨0, ho⟩).text.length) :=
  chunk_size_is_raw_length (fun _ => "w") ["abc"] ⟨"abc", { type := some "text" }⟩ 0
    (by decide)

/-- C9: for a PDF-typed document whose raw splitter pieces carry their
page markers in document order — the ordered marker numbers are 1-based,
non-decreasing across the concatenation of the pieces, and bounded by
total_pages, which `load_pdf` guarantees (it numbers pages 1..N in order)
and the order-preserving splitter maintains — every chunk carrying a page
value carries the number of the first page-break marker of its raw text
(before the marker is stripped), those page values are monotonically
non-decreasing in chunk_index order, and none exceeds total_pages. -/
theorem pdf_page_attribution (freshId : Nat → String) (pieces : List String)
    (document : Document) (tp : Nat)
    (hpdf : document.metadata.type = some "pdf")
    (htp : document.metadata.total_pages = some tp)
    (hsorted : ((pieces.map fun s => scanMarkers s.data).flatten).Pairwise (· ≤ ·))
    (hbounds : ∀ m ∈ (pieces.map fun s => scanMarkers s.data).flatten,
       1 ≤ m ∧ m ≤ tp) :
    (∀ (i : Nat) (hi : i < pieces.length)
       (ho : i < (split_document freshId pieces document).length),
       ((split_document freshId pieces document).get ⟨i, ho⟩).metadata.page =
         (scanMarkers (pieces.get ⟨i, hi⟩).data).head?) ∧
    (∀ (i : Nat) (ho : i < (split_document freshId pieces document).length) (p : Nat),
       ((split_document freshId pieces document).get ⟨i, ho⟩).metadata.page = some p →
       1 ≤ p ∧ p ≤ tp) ∧
    (∀ (i j : Nat) (hoi : i < (split_document freshId pieces document).length)
       (hoj : j < (split_document freshId pieces document).length) (p q : Nat),
       i ≤ j →
       ((split_document freshId pieces document).get ⟨i, hoi⟩).metadata.page = some p →
       ((split_document freshId pieces document).get ⟨j, hoj⟩).metadata.page = some q →
       p ≤ q) := by
  have hmemflat : ∀ (i : Nat) (hi : i < pieces.length) (n : Nat),
      n ∈ scanMarkers (pieces.get ⟨i, hi⟩).data →
      n ∈ (pieces.map fun s => scanMarkers s.data).flatten := by
    intro i hi n hn
    refine List.mem_flatten.mpr ⟨scanMarkers (pieces.get ⟨i, hi⟩).data, ?_, hn⟩
    exact List.mem_map_of_mem _ (by simpa using List.getElem_mem hi)
  have hpage : ∀ (i : Nat) (hi : i < pieces.length)
      (ho : i < (split_document freshId pieces document).length),
      ((split_document freshId pieces document).get ⟨i, ho⟩).metadata.page =
        (scanMarkers (pieces.get ⟨i, hi⟩).data).head? := by
    intro i hi ho
    rw [split_document_get freshId pieces document i hi ho]
    have hh := searchMarker_eq_head (pieces.get ⟨i, hi⟩).data
    cases hpn : extract_page_number (pieces.get ⟨i, hi⟩) with
    | none =>
      have hhead : (scanMarkers (pieces.get ⟨i, hi⟩).data).head? = none := by
        rw [← hh]
        exact hpn
      simp only [List.get_eq_getElem] at hpn hhead ⊢
      simp [hpdf, hpn, hhead]
    | some n =>
      have hhead : (scanMarkers (pieces.get ⟨i, hi⟩).data).head? = some n := by
        rw [← hh]
        exact hpn
      have hnmem : n ∈ scanMarkers (pieces.get ⟨i, hi⟩).data :=
        List.mem_of_mem_head? (Option.mem_def.mpr hhead)
      have hge : 1 ≤ n := (hbounds n (hmemflat i hi n hnmem)).1
      have hz : ¬(n = 0) := by omega
      simp only [List.get_eq_getElem] at hpn hhead ⊢
      simp [hpdf, hpn, hz, hhead]
  have hlen : (split_document freshId pieces document).length = pieces.length :=
    split_document_length freshId pieces document
  refine ⟨hpage, ?_, ?_⟩
  · intro i ho p hp
    have hi : i < pieces.length := hlen ▸ ho
    rw [hpage i hi ho] at hp
    exact hbounds p (hmemflat i hi p
      (List.mem_of_mem_head? (Option.mem_def.mpr hp)))
  · intro i j hoi hoj p q hij hpi hpj
    have hi : i < pieces.length := hlen ▸ hoi
    have hj : j < pieces.length := hlen ▸ hoj
    rcases Nat.eq_or_lt_of_le hij with rfl | hlt
    · have hpq : p = q := Option.some.inj (hpi.symm.trans hpj)
      omega
    · rw [hpage i hi hoi] at hpi
      rw [hpage j hj hoj] at hpj
      have hpmem : p ∈ scanMarkers (pieces.get ⟨i, hi⟩).data :=
        List.mem_of_mem_head? (Option.mem_def.mpr hpi)
      have hqmem : q ∈ scanMarkers (pieces.get ⟨j, hj⟩).data :=
        List.mem_of_mem_head? (Option.mem_def.mpr hpj)
      have hcross := (List.pairwise_flatten.mp hsorted).2
      rw [List.pairwise_iff_get] at hcross
      have hmap : (pieces.map fun s => scanMarkers s.data).length = pieces.length := by
        simp
      have hres := hcross ⟨i, by rw [hmap]; exact hi⟩ ⟨j, by rw [hmap]; exact hj⟩
        (Fin.mk_lt_mk.mpr hlt)
      simp only [List.get_eq_getElem, List.getElem_map] at hres
      refine hres p ?_ q ?_
      · simpa only [List.get_eq_getElem] using hpmem
      · simpa only [List.get_eq_getElem] using hqmem

theorem pdf_page_attribution_wit :
    ∃ ho0 : 0 < (split_document (fun _ => "w") pagePieces pageDoc).length,
    ∃ ho1 : 1 < (split_document (fun _ => "w") pagePieces pageDoc).length,
      ((split_document (fun _ => "w") pagePieces pageDoc).get ⟨0, ho0⟩).metadata.page =
        some 1 ∧
      ((split_document (fun _ => "w") pagePieces pageDoc).get ⟨1, ho1⟩).metadata.page =
        some 2 ∧
      (1 : Nat) ≤ 2 ∧ (2 : Nat) ≤ 2 := by
  have h := pdf_page_attribution (fun _ => "w") pagePieces pageDoc 2 rfl rfl
    (by decide) (by decide)
  have ho0 : 0 < (split_document (fun _ => "w") pagePieces pageDoc).length := by decide
  have ho1 : 1 < (split_document (fun _ => "w") pagePieces pageDoc).length := by decide
  have hp0 : ((split_document (fun _ => "w") pagePieces pageDoc).get
      ⟨0, ho0⟩).metadata.page = some 1 := (h.1 0 (by decide) ho0).trans (by decide)
  have hp1 : ((split_document (fun _ => "w") pagePieces pageDoc).get
      ⟨1, ho1⟩).metadata.page = some 2 := (h.1 1 (by decide) ho1).trans (by decide)
  exact ⟨ho0, ho1, hp0, hp1,
    h.2.2 0 1 ho0 ho1 1 2 (by decide) hp0 hp1,
    (h.2.1 1 ho1 2 hp1).2⟩
